import Mathlib

/-!
# Host-side orchestration of the N-body example (`examples/24-nbody/nbody.cpp`)

A shallow embedding of the parameter presets (`initializeParams`), of the start-up code
(`ExampleNbody::init`) and of one frame (`ExampleNbody::update`), followed by theorems about
the preset table, the reset rule, the dispatch sizes and the buffer ping-pong.

Conventions of the embedding.

* `float` values are elements of an arbitrary type `F`; a decimal literal of the source is
  `lit q` for the rational `q` it spells, where `lit : ℚ → F` is the (unspecified) rounding of
  the compiler.  No float arithmetic is performed by the embedded code: floats are only stored
  and compared for identity.
* `int32_t` values are integers; the two places where the source converts one to an unsigned
  type (`uint16_t(...)` and the `int32_t * uint32_t` product) reduce explicitly.
* A frame is a function from the object state and the results of the external calls of that
  frame (event pump, capability bits, widgets) to the new state and the graphics commands the
  frame issues, grouped by the block of `update` that issues them.
-/

namespace Nbody

/-! ## Parameters (lines 12-87) -/

/-- The record `ParamsData` of lines 12-25, with `float` fields in `F`. -/
structure ParamsData (F : Type) where
  timeStep : F
  dispatchSize : Int
  gravity : F
  damping : F
  particleIntensity : F
  particleSize : F
  baseSeed : Int
  particlePower : F
  initialSpeed : F
  initialShape : Int
  maxAccel : F
deriving DecidableEq, Repr

/-- The function `initializeParams` of lines 27-87: a `switch` over `_mode` with four cases,
each assigning all eleven fields, and no `default` label. -/
def initializeParams {F : Type} (lit : ℚ → F) (_mode : Int) (_params : ParamsData F) :
    ParamsData F :=
  if _mode = 0 then
    { _params with
      timeStep := lit 0.0067
      dispatchSize := 32
      gravity := lit 0.069
      damping := lit 0.0
      particleIntensity := lit 0.35
      particleSize := lit 0.925
      baseSeed := 0
      particlePower := lit 5.0
      initialSpeed := lit 122.6
      initialShape := 0
      maxAccel := lit 30.0 }
  else if _mode = 1 then
    { _params with
      timeStep := lit 0.0157
      dispatchSize := 32
      gravity := lit 0.109
      damping := lit 0.25
      particleIntensity := lit 0.64
      particleSize := lit 0.279
      baseSeed := 57
      particlePower := lit 3.5
      initialSpeed := lit 3.2
      initialShape := 1
      maxAccel := lit 100.0 }
  else if _mode = 2 then
    { _params with
      timeStep := lit 0.02
      dispatchSize := 32
      gravity := lit 0.24
      damping := lit 0.12
      particleIntensity := lit 1.0
      particleSize := lit 1.0
      baseSeed := 23
      particlePower := lit 4.0
      initialSpeed := lit 31.1
      initialShape := 2
      maxAccel := lit 39.29 }
  else if _mode = 3 then
    { _params with
      timeStep := lit 0.0118
      dispatchSize := 32
      gravity := lit 0.141
      damping := lit 1.0
      particleIntensity := lit 0.64
      particleSize := lit 0.28
      baseSeed := 60
      particlePower := lit 1.97
      initialSpeed := lit 69.7
      initialShape := 3
      maxAccel := lit 3.21 }
  else
    _params

/-! ## Constants and integer conversions (lines 99-100, 323, 381) -/

/-- Line 99. -/
def kThreadGroupUpdateSize : Nat := 512

/-- Line 100. -/
def kMaxParticleCount : Nat := 32 * 1024

/-- The conversion `uint16_t(x)` of an `int32_t`: reduction modulo `2^16`. -/
def toUint16 (x : Int) : Nat := (x % 65536).toNat

/-- The implicit conversion of an `int32_t` operand to `uint32_t`: reduction modulo `2^32`. -/
def toUint32 (x : Int) : Nat := (x % 4294967296).toNat

/-- Multiplication of two `uint32_t` values. -/
def mulUint32 (a b : Nat) : Nat := (a * b) % 4294967296

/-! ## Graphics commands -/

/-- A dynamic vertex buffer handle (`bgfx::DynamicVertexBufferHandle`, a 16-bit index). -/
abbrev Handle := Nat

/-- The enumeration `bgfx::Access`. -/
inductive Access where
  | Read
  | Write
  | ReadWrite
deriving DecidableEq, Repr

/-- The four program handles the object holds; they are created in `init` and never
reassigned, so a command names the member rather than the handle value. -/
inductive Program where
  | m_particleProgram
  | m_indirectProgram
  | m_initInstancesProgram
  | m_updateInstancesProgram
deriving DecidableEq, Repr

/-- The calls into the render/compute backend that `init` and `update` make for the
simulation and the draw.  View, debug-text and camera calls are not recorded. -/
inductive Cmd (F : Type) where
  /-- Call `bgfx::createDynamicVertexBuffer(num, computeVertexDecl, ...)` returning `handle`. -/
  | createDynamicVertexBuffer (num : Nat) (handle : Handle)
  /-- Call `bgfx::setUniform(u_params, &m_paramsData, num)` with the record as it is at the call. -/
  | setUniform (params : ParamsData F) (num : Nat)
  /-- Call `bgfx::setBuffer(stage, handle, access)` for a position buffer. -/
  | setBuffer (stage : Nat) (handle : Handle) (access : Access)
  /-- Call `bgfx::setBuffer(stage, m_indirectBuffer, access)`. -/
  | setBufferIndirect (stage : Nat) (access : Access)
  /-- Call `bgfx::dispatch(0, program, numX, numY, numZ)`. -/
  | dispatch (program : Program) (numX numY numZ : Nat)
  /-- Call `bgfx::dispatch(0, program)` with the group counts left to their defaults. -/
  | dispatchDefault (program : Program)
  /-- Call `bgfx::dispatch(0, program, m_indirectBuffer, arg)`. -/
  | dispatchIndirect (program : Program) (arg : Nat)
  /-- Call `bgfx::setVertexBuffer(0, m_vbh)`. -/
  | setVertexBuffer
  /-- Call `bgfx::setIndexBuffer(m_ibh)`. -/
  | setIndexBuffer
  /-- Call `bgfx::setInstanceDataBuffer(handle, startVertex, num)`. -/
  | setInstanceDataBuffer (handle : Handle) (startVertex num : Nat)
  /-- Call `bgfx::setState(...)`. -/
  | setState
  /-- Call `bgfx::submit(0, program)`. -/
  | submit (program : Program)
  /-- Call `bgfx::submit(0, program, m_indirectBuffer, arg)`. -/
  | submitIndirect (program : Program) (arg : Nat)
deriving DecidableEq, Repr

/-! ## Object state and frame input -/

/-- The members of `ExampleNbody` that the simulation logic reads or writes (lines 429-443):
the indirect flag, the parameter record and the four position-buffer handles. -/
structure ExampleNbody (F : Type) where
  m_useIndirect : Bool
  m_paramsData : ParamsData F
  m_currPositionBuffer0 : Handle
  m_currPositionBuffer1 : Handle
  m_prevPositionBuffer0 : Handle
  m_prevPositionBuffer1 : Handle
deriving DecidableEq, Repr

/-- What the external calls of one `update` return.

`quit` is the result of `entry::processEvents`; the two capability bits are read from
`bgfx::getCaps()`.  For the widgets of lines 267-282: a slider leaves a value in the field it
is bound to (the field named like the input), `shape` is the result of `imguiChoose`,
`defaults` the result of `imguiButton("Reset")` and `indirectCheck` the result of
`imguiCheck`. -/
structure FrameInput (F : Type) where
  quit : Bool
  computeSupported : Bool
  indirectSupported : Bool
  baseSeed : Int
  shape : Int
  initialSpeed : F
  defaults : Bool
  dispatchSize : Int
  gravity : F
  damping : F
  maxAccel : F
  timeStep : F
  particleIntensity : F
  particleSize : F
  particlePower : F
  indirectCheck : Bool
deriving DecidableEq, Repr

/-- The commands of one frame, grouped by the block of `update` that issues them. -/
structure FrameTrace (F : Type) where
  /-- Lines 296-302. -/
  reinit : List (Cmd F)
  /-- Lines 304-309. -/
  indirect : List (Cmd F)
  /-- Lines 311-324. -/
  update : List (Cmd F)
  /-- Lines 376-399. -/
  draw : List (Cmd F)
deriving DecidableEq, Repr

/-- The commands of a frame in the order they are issued. -/
def FrameTrace.flatten {F : Type} (t : FrameTrace F) : List (Cmd F) :=
  t.reinit ++ t.indirect ++ t.update ++ t.draw

/-- A frame that issues no simulation or draw command. -/
def FrameTrace.empty {F : Type} : FrameTrace F := ⟨[], [], [], []⟩

/-- The outcome of `update`: its return value, the object afterwards, the commands issued. -/
structure FrameResult (F : Type) where
  result : Bool
  state : ExampleNbody F
  trace : FrameTrace F
deriving DecidableEq, Repr

/-! ## Start-up (lines 104-198) -/

/-- The part of `ExampleNbody::init` that concerns the simulation (lines 127-197).  The four
handles are what the four calls of `createDynamicVertexBuffer` return, in call order; `st`
is the object before `init`, whose members stay as they are when compute is unsupported. -/
def init {F : Type} (lit : ℚ → F) (st : ExampleNbody F) (computeSupported : Bool)
    (h0 h1 h2 h3 : Handle) : ExampleNbody F × List (Cmd F) :=
  if computeSupported then
    let m_paramsData := initializeParams lit 0 st.m_paramsData
    ({ m_useIndirect := false
       m_paramsData := m_paramsData
       m_currPositionBuffer0 := h0
       m_currPositionBuffer1 := h1
       m_prevPositionBuffer0 := h2
       m_prevPositionBuffer1 := h3 },
     [ Cmd.createDynamicVertexBuffer (1 <<< 15) h0,
       Cmd.createDynamicVertexBuffer (1 <<< 15) h1,
       Cmd.createDynamicVertexBuffer (1 <<< 15) h2,
       Cmd.createDynamicVertexBuffer (1 <<< 15) h3,
       Cmd.setUniform m_paramsData 3,
       Cmd.setBuffer 0 h2 Access.Write,
       Cmd.setBuffer 1 h0 Access.Write,
       Cmd.dispatch Program.m_initInstancesProgram
         (kMaxParticleCount / kThreadGroupUpdateSize) 1 1 ])
  else
    (st, [])

/-! ## One frame (lines 229-423) -/

/-- Modelled from the spec: the widgets of lines 267-282 are calls into the UI collaborator
(`imguiSlider`, `imguiChoose`, `imguiButton`, `imguiCheck`), which is not part of the source
file.  Per §6 the system "reads back edited scalar/enum values" and boolean edge triggers: a
slider writes the value it holds into the field passed by reference, `imguiChoose` receives
`initialShape` by value and returns the selected shape, the button and the check box return
a boolean.  Lines 282-285 flip `m_useIndirect` when the check box reports a click.  The
result is the object after line 287 together with the locals `shape` and `defaults`. -/
def imguiFrame {F : Type} (st : ExampleNbody F) (i : FrameInput F) :
    ExampleNbody F × Int × Bool :=
  let m_paramsData : ParamsData F :=
    { st.m_paramsData with
      baseSeed := i.baseSeed
      initialSpeed := i.initialSpeed
      dispatchSize := i.dispatchSize
      gravity := i.gravity
      damping := i.damping
      maxAccel := i.maxAccel
      timeStep := i.timeStep
      particleIntensity := i.particleIntensity
      particleSize := i.particleSize
      particlePower := i.particlePower }
  let m_useIndirect := if i.indirectCheck then !st.m_useIndirect else st.m_useIndirect
  ({ st with m_paramsData := m_paramsData, m_useIndirect := m_useIndirect }, i.shape, i.defaults)

/-- Lines 289-294: when the selected shape differs from `initialShape`, force `defaults` and
load the preset of the selected shape.  Returns the object and `defaults`. -/
def resetStep {F : Type} (lit : ℚ → F) (st : ExampleNbody F) (shape : Int) (defaults : Bool) :
    ExampleNbody F × Bool :=
  if shape ≠ st.m_paramsData.initialShape then
    ({ st with m_paramsData := initializeParams lit shape st.m_paramsData }, true)
  else
    (st, defaults)

/-- Lines 296-302: the reinitialisation pass, issued when `defaults` holds. -/
def reinitPass {F : Type} (st : ExampleNbody F) (defaults : Bool) : List (Cmd F) :=
  if defaults then
    [ Cmd.setBuffer 0 st.m_prevPositionBuffer0 Access.Write,
      Cmd.setBuffer 1 st.m_currPositionBuffer0 Access.Write,
      Cmd.setUniform st.m_paramsData 3,
      Cmd.dispatch Program.m_initInstancesProgram
        (kMaxParticleCount / kThreadGroupUpdateSize) 1 1 ]
  else
    []

/-- Lines 304-309: the indirect-count pass, issued when `m_useIndirect` holds. -/
def indirectPass {F : Type} (st : ExampleNbody F) : List (Cmd F) :=
  if st.m_useIndirect then
    [ Cmd.setUniform st.m_paramsData 3,
      Cmd.setBufferIndirect 0 Access.Write,
      Cmd.dispatchDefault Program.m_indirectProgram ]
  else
    []

/-- Lines 311-324: the update pass. -/
def updatePass {F : Type} (st : ExampleNbody F) : List (Cmd F) :=
  [ Cmd.setBuffer 0 st.m_prevPositionBuffer0 Access.Read,
    Cmd.setBuffer 1 st.m_currPositionBuffer0 Access.Read,
    Cmd.setBuffer 2 st.m_prevPositionBuffer1 Access.Write,
    Cmd.setBuffer 3 st.m_currPositionBuffer1 Access.Write,
    Cmd.setUniform st.m_paramsData 3,
    if st.m_useIndirect then
      Cmd.dispatchIndirect Program.m_updateInstancesProgram 1
    else
      Cmd.dispatch Program.m_updateInstancesProgram (toUint16 st.m_paramsData.dispatchSize) 1 1 ]

/-- Modelled from the spec: `bx::xchg` belongs to the base library, which is not part of the
source file; §4.4 calls lines 326-327 an "in-place exchange" of the two labels, so the
helper leaves in each argument the value the other one held. -/
def xchg {α : Type} (a b : α) : α × α := (b, a)

/-- Lines 326-327: exchange the two current-position handles, then the two previous-position
handles. -/
def swapBuffers {F : Type} (st : ExampleNbody F) : ExampleNbody F :=
  let c := xchg st.m_currPositionBuffer0 st.m_currPositionBuffer1
  let st := { st with m_currPositionBuffer0 := c.1, m_currPositionBuffer1 := c.2 }
  let p := xchg st.m_prevPositionBuffer0 st.m_prevPositionBuffer1
  { st with m_prevPositionBuffer0 := p.1, m_prevPositionBuffer1 := p.2 }

/-- Lines 376-399: the draw call. -/
def drawCall {F : Type} (st : ExampleNbody F) : List (Cmd F) :=
  [ Cmd.setVertexBuffer,
    Cmd.setIndexBuffer,
    Cmd.setInstanceDataBuffer st.m_currPositionBuffer0 0
      (mulUint32 (toUint32 st.m_paramsData.dispatchSize) kThreadGroupUpdateSize),
    Cmd.setState,
    if st.m_useIndirect then
      Cmd.submitIndirect Program.m_particleProgram 0
    else
      Cmd.submit Program.m_particleProgram ]

/-- The method `ExampleNbody::update` (lines 229-423).  When `processEvents` reports an exit
the method returns `false` at once; when compute is unsupported it only prints a notice. -/
def update {F : Type} (lit : ℚ → F) (st : ExampleNbody F) (i : FrameInput F) : FrameResult F :=
  if !i.quit then
    if i.computeSupported then
      let ui := imguiFrame st i
      let shape := ui.2.1
      let rs := resetStep lit ui.1 shape ui.2.2
      let st1 := rs.1
      let defaults := rs.2
      let reinit := reinitPass st1 defaults
      let indirect := indirectPass st1
      let upd := updatePass st1
      let st2 := swapBuffers st1
      let draw := drawCall st2
      { result := true, state := st2, trace := ⟨reinit, indirect, upd, draw⟩ }
    else
      { result := true, state := st, trace := FrameTrace.empty }
  else
    { result := false, state := st, trace := FrameTrace.empty }

/-- The main loop of the entry layer: call `update` with the inputs of successive frames
until it returns `false` or the inputs end; the result is the object at that point. -/
def run {F : Type} (lit : ℚ → F) (st : ExampleNbody F) : List (FrameInput F) → ExampleNbody F
  | [] => st
  | i :: rest =>
    let r := update lit st i
    if r.result then run lit r.state rest else r.state

/-! ## Observations on commands -/

/-- The position buffers a command list binds with read access, in binding order. -/
def passReads {F : Type} (cs : List (Cmd F)) : List Handle :=
  cs.filterMap fun c =>
    match c with
    | Cmd.setBuffer _ h Access.Read => some h
    | _ => none

/-- The position buffers a command list binds with write access, in binding order. -/
def passWrites {F : Type} (cs : List (Cmd F)) : List Handle :=
  cs.filterMap fun c =>
    match c with
    | Cmd.setBuffer _ h Access.Write => some h
    | _ => none

/-- The position-buffer bindings (stage, handle, access) of a command list. -/
def positionBindings {F : Type} (cs : List (Cmd F)) : List (Nat × Handle × Access) :=
  cs.filterMap fun c =>
    match c with
    | Cmd.setBuffer s h a => some (s, h, a)
    | _ => none

/-- The instance-data bindings (handle, first vertex, count) of a command list. -/
def instanceBindings {F : Type} (cs : List (Cmd F)) : List (Handle × Nat × Nat) :=
  cs.filterMap fun c =>
    match c with
    | Cmd.setInstanceDataBuffer h s n => some (h, s, n)
    | _ => none

/-- The number of dispatches of the reinitialisation program in a command list. -/
def countReinit {F : Type} (cs : List (Cmd F)) : Nat :=
  cs.countP fun c =>
    match c with
    | Cmd.dispatch Program.m_initInstancesProgram _ _ _ => true
    | _ => false

/-- The capacities requested by the buffer creations of a command list. -/
def bufferCapacities {F : Type} (cs : List (Cmd F)) : List Nat :=
  cs.filterMap fun c =>
    match c with
    | Cmd.createDynamicVertexBuffer n _ => some n
    | _ => none

/-- The four slot labels of the buffer ring, in the order curr0, curr1, prev0, prev1. -/
def labels {F : Type} (st : ExampleNbody F) : List Handle :=
  [st.m_currPositionBuffer0, st.m_currPositionBuffer1,
   st.m_prevPositionBuffer0, st.m_prevPositionBuffer1]

/-! ## Concrete values used to exercise the definitions -/

/-- A parameter record with rational fields that is none of the presets. -/
def sampleParams : ParamsData ℚ :=
  { timeStep := 0.01, dispatchSize := 64, gravity := 0.2, damping := 0.5,
    particleIntensity := 0.5, particleSize := 0.5, baseSeed := 7, particlePower := 2,
    initialSpeed := 10, initialShape := 0, maxAccel := 50 }

/-- An object with four distinct position buffers and the indirect path off. -/
def sampleState : ExampleNbody ℚ :=
  { m_useIndirect := false, m_paramsData := sampleParams,
    m_currPositionBuffer0 := 0, m_currPositionBuffer1 := 1,
    m_prevPositionBuffer0 := 2, m_prevPositionBuffer1 := 3 }

/-- A frame in which the user leaves every widget as it is (shape 0, no Reset). -/
def sampleInput : FrameInput ℚ :=
  { quit := false, computeSupported := true, indirectSupported := true,
    baseSeed := 7, shape := 0, initialSpeed := 10, defaults := false, dispatchSize := 64,
    gravity := 0.2, damping := 0.5, maxAccel := 50, timeStep := 0.01,
    particleIntensity := 0.5, particleSize := 0.5, particlePower := 2,
    indirectCheck := false }

/-! ## The preset table -/

/-- C1: for a preset index `i` among 0, 1, 2, 3 and any two input records `p`, `q`,
`initializeParams i` returns the same record for both (the result does not depend on the
input), with `initialShape = i` and `dispatchSize = 32`; and the four results are the
records of the constants written in the four `case` blocks, all eleven fields assigned. -/
theorem initializeParams_preset {F : Type} (lit : ℚ → F) (i : Int)
    (hi : i = 0 ∨ i = 1 ∨ i = 2 ∨ i = 3) (p q : ParamsData F) :
    (initializeParams lit i p = initializeParams lit i q
      ∧ (initializeParams lit i p).initialShape = i
      ∧ (initializeParams lit i p).dispatchSize = 32)
    ∧ initializeParams lit 0 p =
        { timeStep := lit 0.0067, dispatchSize := 32, gravity := lit 0.069,
          damping := lit 0.0, particleIntensity := lit 0.35, particleSize := lit 0.925,
          baseSeed := 0, particlePower := lit 5.0, initialSpeed := lit 122.6,
          initialShape := 0, maxAccel := lit 30.0 }
    ∧ initializeParams lit 1 p =
        { timeStep := lit 0.0157, dispatchSize := 32, gravity := lit 0.109,
          damping := lit 0.25, particleIntensity := lit 0.64, particleSize := lit 0.279,
          baseSeed := 57, particlePower := lit 3.5, initialSpeed := lit 3.2,
          initialShape := 1, maxAccel := lit 100.0 }
    ∧ initializeParams lit 2 p =
        { timeStep := lit 0.02, dispatchSize := 32, gravity := lit 0.24,
          damping := lit 0.12, particleIntensity := lit 1.0, particleSize := lit 1.0,
          baseSeed := 23, particlePower := lit 4.0, initialSpeed := lit 31.1,
          initialShape := 2, maxAccel := lit 39.29 }
    ∧ initializeParams lit 3 p =
        { timeStep := lit 0.0118, dispatchSize := 32, gravity := lit 0.141,
          damping := lit 1.0, particleIntensity := lit 0.64, particleSize := lit 0.28,
          baseSeed := 60, particlePower := lit 1.97, initialSpeed := lit 69.7,
          initialShape := 3, maxAccel := lit 3.21 } := by
  refine ⟨?_, rfl, rfl, rfl, rfl⟩
  rcases hi with rfl | rfl | rfl | rfl <;> exact ⟨rfl, rfl, rfl⟩

/-- Witness for C1 at preset 2, on a user-edited record and on the record of preset 0. -/
theorem initializeParams_preset_witness :
    ((2 : Int) = 0 ∨ (2 : Int) = 1 ∨ (2 : Int) = 2 ∨ (2 : Int) = 3)
    ∧ initializeParams id 2 sampleParams
        = initializeParams id 2 (initializeParams id 0 sampleParams)
    ∧ (initializeParams id 2 sampleParams).initialShape = 2
    ∧ (initializeParams id 2 sampleParams).dispatchSize = 32 :=
  ⟨by decide,
   (initializeParams_preset id 2 (by decide) sampleParams
      (initializeParams id 0 sampleParams)).1⟩

/-- C2: for an index `m` other than 0, 1, 2, 3 (every negative `m` included) and any input
record `p`, `initializeParams m p` is `p`: no field changes. -/
theorem initializeParams_other {F : Type} (lit : ℚ → F) (m : Int)
    (hm : m ≠ 0 ∧ m ≠ 1 ∧ m ≠ 2 ∧ m ≠ 3) (p : ParamsData F) :
    initializeParams lit m p = p := by
  obtain ⟨h0, h1, h2, h3⟩ := hm
  simp [initializeParams, h0, h1, h2, h3]

/-- Witness for C2 at the indices `-1` and `4`. -/
theorem initializeParams_other_witness :
    (((-1 : Int) ≠ 0 ∧ (-1 : Int) ≠ 1 ∧ (-1 : Int) ≠ 2 ∧ (-1 : Int) ≠ 3)
      ∧ initializeParams id (-1) sampleParams = sampleParams)
    ∧ (((4 : Int) ≠ 0 ∧ (4 : Int) ≠ 1 ∧ (4 : Int) ≠ 2 ∧ (4 : Int) ≠ 3)
      ∧ initializeParams id 4 sampleParams = sampleParams) :=
  ⟨⟨by decide, initializeParams_other id (-1) (by decide) sampleParams⟩,
   ⟨by decide, initializeParams_other id 4 (by decide) sampleParams⟩⟩

/-- On a preset index the result of `initializeParams` is the same for all inputs. -/
theorem initializeParams_uniform {F : Type} (lit : ℚ → F) (i : Int)
    (hi : i = 0 ∨ i = 1 ∨ i = 2 ∨ i = 3) (p q : ParamsData F) :
    initializeParams lit i p = initializeParams lit i q := by
  rcases hi with rfl | rfl | rfl | rfl <;> rfl

/-- On a preset index the result of `initializeParams` has that index as `initialShape`. -/
theorem initializeParams_shape {F : Type} (lit : ℚ → F) (i : Int)
    (hi : i = 0 ∨ i = 1 ∨ i = 2 ∨ i = 3) (p : ParamsData F) :
    (initializeParams lit i p).initialShape = i := by
  rcases hi with rfl | rfl | rfl | rfl <;> rfl

/-! ## The reset rule -/

/-- The widgets never write `initialShape`: after the UI block it is what it was. -/
theorem imguiFrame_initialShape {F : Type} (st : ExampleNbody F) (i : FrameInput F) :
    (imguiFrame st i).1.m_paramsData.initialShape = st.m_paramsData.initialShape := rfl

/-- A frame that is not an exit and has compute support runs the five blocks in order. -/
theorem update_active {F : Type} (lit : ℚ → F) (st : ExampleNbody F) (i : FrameInput F)
    (hq : i.quit = false) (hc : i.computeSupported = true) :
    update lit st i =
      { result := true
        state := swapBuffers (resetStep lit (imguiFrame st i).1 i.shape i.defaults).1
        trace :=
          ⟨reinitPass (resetStep lit (imguiFrame st i).1 i.shape i.defaults).1
              (resetStep lit (imguiFrame st i).1 i.shape i.defaults).2,
            indirectPass (resetStep lit (imguiFrame st i).1 i.shape i.defaults).1,
            updatePass (resetStep lit (imguiFrame st i).1 i.shape i.defaults).1,
            drawCall (swapBuffers (resetStep lit (imguiFrame st i).1 i.shape i.defaults).1)⟩ } := by
  simp [update, hq, hc, imguiFrame]

/-- The UI block and the reset step leave the four slot labels as they are. -/
theorem resetStep_labels {F : Type} (lit : ℚ → F) (st : ExampleNbody F) (i : FrameInput F) :
    (resetStep lit (imguiFrame st i).1 i.shape i.defaults).1.m_currPositionBuffer0
        = st.m_currPositionBuffer0
    ∧ (resetStep lit (imguiFrame st i).1 i.shape i.defaults).1.m_currPositionBuffer1
        = st.m_currPositionBuffer1
    ∧ (resetStep lit (imguiFrame st i).1 i.shape i.defaults).1.m_prevPositionBuffer0
        = st.m_prevPositionBuffer0
    ∧ (resetStep lit (imguiFrame st i).1 i.shape i.defaults).1.m_prevPositionBuffer1
        = st.m_prevPositionBuffer1 := by
  unfold resetStep
  split <;> exact ⟨rfl, rfl, rfl, rfl⟩

/-- A frame that is an exit or lacks compute support changes nothing and issues nothing. -/
theorem update_inactive {F : Type} (lit : ℚ → F) (st : ExampleNbody F) (i : FrameInput F)
    (h : i.quit = true ∨ i.computeSupported = false) :
    (update lit st i).state = st ∧ (update lit st i).trace = FrameTrace.empty := by
  rcases h with h | h
  · simp [update, h]
  · cases hq : i.quit <;> simp [update, h, hq]

/-- Dispatches of the reinitialisation program add up over concatenation. -/
theorem countReinit_append {F : Type} (a b : List (Cmd F)) :
    countReinit (a ++ b) = countReinit a + countReinit b := by
  simp [countReinit, List.countP_append]

/-- The reinitialisation pass holds one dispatch of the reinitialisation program when it is
issued and none otherwise. -/
theorem countReinit_reinitPass {F : Type} (st : ExampleNbody F) (defaults : Bool) :
    countReinit (reinitPass st defaults) = if defaults then 1 else 0 := by
  cases defaults <;> simp [reinitPass, countReinit, List.countP_cons]

/-- The indirect-count pass never dispatches the reinitialisation program. -/
theorem countReinit_indirectPass {F : Type} (st : ExampleNbody F) :
    countReinit (indirectPass st) = 0 := by
  cases h : st.m_useIndirect <;> simp [indirectPass, countReinit, List.countP_cons, h]

/-- The update pass never dispatches the reinitialisation program. -/
theorem countReinit_updatePass {F : Type} (st : ExampleNbody F) :
    countReinit (updatePass st) = 0 := by
  cases h : st.m_useIndirect <;> simp [updatePass, countReinit, List.countP_cons, h]

/-- The draw call never dispatches the reinitialisation program. -/
theorem countReinit_drawCall {F : Type} (st : ExampleNbody F) :
    countReinit (drawCall st) = 0 := by
  cases h : st.m_useIndirect <;> simp [drawCall, countReinit, List.countP_cons, h]

/-- The reinitialisation dispatches of an active frame are those of its reset block. -/
theorem countReinit_frame {F : Type} (lit : ℚ → F) (st : ExampleNbody F) (i : FrameInput F)
    (hq : i.quit = false) (hc : i.computeSupported = true) :
    countReinit (update lit st i).trace.flatten =
      if (resetStep lit (imguiFrame st i).1 i.shape i.defaults).2 then 1 else 0 := by
  rw [update_active lit st i hq hc]
  simp only [FrameTrace.flatten, countReinit_append, countReinit_reinitPass,
    countReinit_indirectPass, countReinit_updatePass, countReinit_drawCall, Nat.add_zero]

/-- C3: when the shape `s` selected in a frame is one of 0, 1, 2, 3 and differs from the
`initialShape` of the parameters, then (whether Reset was pressed or not) the reset step
forces the reinitialisation, the frame issues the reinitialisation pass exactly once with the
preset in its uniform, and the parameters after the frame are the preset of `s` in every
field, whatever they were before; that preset has `initialShape = s`, so a following frame
with the same selected shape and no Reset press issues no reinitialisation pass: the two
frames together dispatch the reinitialisation program once. -/
theorem shape_change_reinit_once {F : Type} (lit : ℚ → F) (st : ExampleNbody F)
    (i1 i2 : FrameInput F) (s : Int)
    (hs : s = 0 ∨ s = 1 ∨ s = 2 ∨ s = 3)
    (hne : s ≠ st.m_paramsData.initialShape)
    (hq1 : i1.quit = false) (hc1 : i1.computeSupported = true) (h1 : i1.shape = s)
    (hq2 : i2.quit = false) (hc2 : i2.computeSupported = true) (h2 : i2.shape = s)
    (hr2 : i2.defaults = false) :
    (resetStep lit (imguiFrame st i1).1 s i1.defaults).2 = true
    ∧ (update lit st i1).trace.reinit =
        [ Cmd.setBuffer 0 st.m_prevPositionBuffer0 Access.Write,
          Cmd.setBuffer 1 st.m_currPositionBuffer0 Access.Write,
          Cmd.setUniform (initializeParams lit s st.m_paramsData) 3,
          Cmd.dispatch Program.m_initInstancesProgram 64 1 1 ]
    ∧ countReinit (update lit st i1).trace.flatten = 1
    ∧ (∀ q : ParamsData F, (update lit st i1).state.m_paramsData = initializeParams lit s q)
    ∧ (update lit st i1).state.m_paramsData.initialShape = s
    ∧ (update lit (update lit st i1).state i2).trace.reinit = []
    ∧ countReinit (update lit (update lit st i1).state i2).trace.flatten = 0
    ∧ countReinit ((update lit st i1).trace.flatten
        ++ (update lit (update lit st i1).state i2).trace.flatten) = 1 := by
  have hpre : ∀ p q : ParamsData F, initializeParams lit s p = initializeParams lit s q :=
    fun p q => initializeParams_uniform lit s hs p q
  have hshape : ∀ p : ParamsData F, (initializeParams lit s p).initialShape = s :=
    fun p => initializeParams_shape lit s hs p
  have hne1 : i1.shape ≠ (imguiFrame st i1).1.m_paramsData.initialShape := by
    rw [h1]; exact hne
  have hr1 : resetStep lit (imguiFrame st i1).1 i1.shape i1.defaults
      = ({ (imguiFrame st i1).1 with
            m_paramsData := initializeParams lit s st.m_paramsData }, true) := by
    rw [resetStep, if_pos hne1, h1, hpre (imguiFrame st i1).1.m_paramsData st.m_paramsData]
  have hp1 : (update lit st i1).state.m_paramsData = initializeParams lit s st.m_paramsData := by
    rw [update_active lit st i1 hq1 hc1, hr1]; rfl
  have hsame : ¬ (i2.shape ≠
      (imguiFrame (update lit st i1).state i2).1.m_paramsData.initialShape) := by
    rw [imguiFrame_initialShape, hp1, hshape, h2]; exact fun h => h rfl
  have hs2 : resetStep lit (imguiFrame (update lit st i1).state i2).1 i2.shape i2.defaults
      = ((imguiFrame (update lit st i1).state i2).1, false) := by
    rw [resetStep, if_neg hsame, hr2]
  have ht1 : (update lit st i1).trace.reinit =
      [ Cmd.setBuffer 0 st.m_prevPositionBuffer0 Access.Write,
        Cmd.setBuffer 1 st.m_currPositionBuffer0 Access.Write,
        Cmd.setUniform (initializeParams lit s st.m_paramsData) 3,
        Cmd.dispatch Program.m_initInstancesProgram 64 1 1 ] := by
    rw [update_active lit st i1 hq1 hc1, hr1]; rfl
  have hn1 : countReinit (update lit st i1).trace.flatten = 1 := by
    rw [countReinit_frame lit st i1 hq1 hc1, hr1]; rfl
  have hn2 : countReinit (update lit (update lit st i1).state i2).trace.flatten = 0 := by
    rw [countReinit_frame lit _ i2 hq2 hc2, hs2]; rfl
  refine ⟨?_, ht1, hn1, fun q => ?_, ?_, ?_, hn2, ?_⟩
  · rw [← h1, hr1]
  · rw [hp1]; exact hpre _ _
  · rw [hp1]; exact hshape _
  · rw [update_active lit _ i2 hq2 hc2, hs2]; rfl
  · rw [countReinit_append, hn1, hn2]

/-- Witness for C3: from shape 0 the user selects shape 2, then leaves it selected. -/
theorem shape_change_reinit_once_witness :
    ((2 : Int) = 0 ∨ (2 : Int) = 1 ∨ (2 : Int) = 2 ∨ (2 : Int) = 3)
    ∧ (2 : Int) ≠ sampleState.m_paramsData.initialShape
    ∧ countReinit (update id sampleState { sampleInput with shape := 2 }).trace.flatten = 1
    ∧ (update id sampleState { sampleInput with shape := 2 }).state.m_paramsData
        = initializeParams id 2 sampleParams
    ∧ countReinit (update id (update id sampleState { sampleInput with shape := 2 }).state
        { sampleInput with shape := 2 }).trace.flatten = 0 :=
  have h := shape_change_reinit_once id sampleState { sampleInput with shape := 2 }
    { sampleInput with shape := 2 } 2 (by decide) (by decide) rfl rfl rfl rfl rfl rfl rfl
  ⟨by decide, by decide, h.2.2.1, h.2.2.2.1 sampleParams, h.2.2.2.2.2.2.1⟩

/-- C10: in a frame whose selected shape equals the `initialShape` of the parameters, the
reset step returns the object and the Reset result as they are (no parameter field changes),
the reinitialisation pass is issued if and only if Reset was pressed, and when it is issued
its uniform is the current parameter record. -/
theorem same_shape_reinit_iff_reset {F : Type} (lit : ℚ → F) (st : ExampleNbody F)
    (i : FrameInput F) (hq : i.quit = false) (hc : i.computeSupported = true)
    (h : i.shape = st.m_paramsData.initialShape) :
    (∀ defaults : Bool, resetStep lit st st.m_paramsData.initialShape defaults = (st, defaults))
    ∧ resetStep lit (imguiFrame st i).1 i.shape i.defaults = ((imguiFrame st i).1, i.defaults)
    ∧ (update lit st i).state.m_paramsData = (imguiFrame st i).1.m_paramsData
    ∧ ((update lit st i).trace.reinit ≠ [] ↔ i.defaults = true)
    ∧ (countReinit (update lit st i).trace.flatten = if i.defaults then 1 else 0)
    ∧ (i.defaults = true → (update lit st i).trace.reinit =
        [ Cmd.setBuffer 0 st.m_prevPositionBuffer0 Access.Write,
          Cmd.setBuffer 1 st.m_currPositionBuffer0 Access.Write,
          Cmd.setUniform (imguiFrame st i).1.m_paramsData 3,
          Cmd.dispatch Program.m_initInstancesProgram 64 1 1 ])
    ∧ (i.defaults = false → (update lit st i).trace.reinit = []) := by
  have hsame : ¬ (i.shape ≠ (imguiFrame st i).1.m_paramsData.initialShape) := by
    rw [imguiFrame_initialShape, h]; exact fun hn => hn rfl
  have hr : resetStep lit (imguiFrame st i).1 i.shape i.defaults
      = ((imguiFrame st i).1, i.defaults) := by
    rw [resetStep, if_neg hsame]
  have ht : (update lit st i).trace.reinit = reinitPass (imguiFrame st i).1 i.defaults := by
    rw [update_active lit st i hq hc, hr]
  refine ⟨fun defaults => ?_, hr, ?_, ?_, ?_, fun hd => ?_, fun hd => ?_⟩
  · simp [resetStep]
  · rw [update_active lit st i hq hc, hr]; rfl
  · rw [ht]; cases hd : i.defaults <;> simp [reinitPass]
  · rw [countReinit_frame lit st i hq hc, hr]
  · rw [ht, hd]; rfl
  · rw [ht, hd]; rfl

/-- Witness for C10: shape 0 stays selected; once with Reset pressed, once without. -/
theorem same_shape_reinit_iff_reset_witness :
    (sampleInput.shape = sampleState.m_paramsData.initialShape
      ∧ countReinit (update id sampleState sampleInput).trace.flatten = 0
      ∧ (update id sampleState sampleInput).state.m_paramsData = sampleParams)
    ∧ ({ sampleInput with defaults := true }.shape = sampleState.m_paramsData.initialShape
      ∧ countReinit (update id sampleState { sampleInput with defaults := true }).trace.flatten
          = 1
      ∧ (update id sampleState { sampleInput with defaults := true }).state.m_paramsData
          = sampleParams) :=
  ⟨⟨rfl, (same_shape_reinit_iff_reset id sampleState sampleInput rfl rfl rfl).2.2.2.2.1,
      (same_shape_reinit_iff_reset id sampleState sampleInput rfl rfl rfl).2.2.1⟩,
   ⟨rfl,
      (same_shape_reinit_iff_reset id sampleState { sampleInput with defaults := true }
        rfl rfl rfl).2.2.2.2.1,
      (same_shape_reinit_iff_reset id sampleState { sampleInput with defaults := true }
        rfl rfl rfl).2.2.1⟩⟩

/-! ## Dispatch sizes in direct mode -/

/-- For a group count in `0..65535` the conversion to `uint16_t` changes nothing. -/
theorem toUint16_of_range (d : Int) (h0 : 0 ≤ d) (h1 : d < 65536) :
    toUint16 d = d.toNat := by
  unfold toUint16; omega

/-- For a group count in `0..64` the instance count is the exact product with 512. -/
theorem instanceCount_of_range (d : Int) (h0 : 0 ≤ d) (h1 : d ≤ 64) :
    mulUint32 (toUint32 d) kThreadGroupUpdateSize = d.toNat * kThreadGroupUpdateSize := by
  unfold mulUint32 toUint32 kThreadGroupUpdateSize; omega

/-- C4: in a frame that runs in direct mode (`m_useIndirect` is off when the passes are
issued) with `dispatchSize = d` in `1..64`, the update pass is dispatched over `d` groups
(the conversion to `uint16_t` keeps `d`), the draw receives `d * kThreadGroupUpdateSize`
instances, and that count equals itself clamped to `kMaxParticleCount`: it never exceeds
`kMaxParticleCount = 32768`, reaches it exactly at `d = 64`, and is 16384 at `d = 32`; the
four position buffers are created with capacity `1 << 15 = kMaxParticleCount`. -/
theorem direct_work_count {F : Type} (lit : ℚ → F) (st : ExampleNbody F) (i : FrameInput F)
    (hq : i.quit = false) (hc : i.computeSupported = true)
    (hdirect : (update lit st i).state.m_useIndirect = false)
    (d : Int) (hd : (update lit st i).state.m_paramsData.dispatchSize = d)
    (hd1 : 1 ≤ d) (hd64 : d ≤ 64) :
    (update lit st i).trace.indirect = []
    ∧ (update lit st i).trace.update =
        [ Cmd.setBuffer 0 st.m_prevPositionBuffer0 Access.Read,
          Cmd.setBuffer 1 st.m_currPositionBuffer0 Access.Read,
          Cmd.setBuffer 2 st.m_prevPositionBuffer1 Access.Write,
          Cmd.setBuffer 3 st.m_currPositionBuffer1 Access.Write,
          Cmd.setUniform (update lit st i).state.m_paramsData 3,
          Cmd.dispatch Program.m_updateInstancesProgram d.toNat 1 1 ]
    ∧ (update lit st i).trace.draw =
        [ Cmd.setVertexBuffer,
          Cmd.setIndexBuffer,
          Cmd.setInstanceDataBuffer st.m_currPositionBuffer1 0
            (d.toNat * kThreadGroupUpdateSize),
          Cmd.setState,
          Cmd.submit Program.m_particleProgram ]
    ∧ ((d.toNat : Int) = d ∧ kThreadGroupUpdateSize = 512 ∧ kMaxParticleCount = 32768)
    ∧ d.toNat * kThreadGroupUpdateSize = min (d.toNat * kThreadGroupUpdateSize) kMaxParticleCount
    ∧ d.toNat * kThreadGroupUpdateSize ≤ kMaxParticleCount
    ∧ (d.toNat * kThreadGroupUpdateSize = kMaxParticleCount ↔ d = 64)
    ∧ (d = 32 → d.toNat * kThreadGroupUpdateSize = 16384)
    ∧ (∀ (st0 : ExampleNbody F) (h0 h1 h2 h3 : Handle),
        bufferCapacities (init lit st0 true h0 h1 h2 h3).2
          = [kMaxParticleCount, kMaxParticleCount, kMaxParticleCount, kMaxParticleCount]) := by
  obtain ⟨hc0, hc1, hp0, hp1⟩ := resetStep_labels lit st i
  rw [update_active lit st i hq hc] at hdirect hd ⊢
  generalize resetStep lit (imguiFrame st i).1 i.shape i.defaults = rs at *
  have hdir : rs.1.m_useIndirect = false := hdirect
  have hds : rs.1.m_paramsData.dispatchSize = d := hd
  have h16 : toUint16 d = d.toNat := toUint16_of_range d (by omega) (by omega)
  have h32 := instanceCount_of_range d (by omega) hd64
  refine ⟨?_, ?_, ?_, ⟨by omega, rfl, rfl⟩, ?_, ?_, ?_, ?_, ?_⟩
  · simp [indirectPass, hdir]
  · simp [updatePass, hdir, hds, h16, hc0, hc1, hp0, hp1, swapBuffers, xchg]
  · simp [drawCall, hdir, hds, h32, hc1, swapBuffers, xchg]
  · unfold kThreadGroupUpdateSize kMaxParticleCount; omega
  · unfold kThreadGroupUpdateSize kMaxParticleCount; omega
  · unfold kThreadGroupUpdateSize kMaxParticleCount; omega
  · intro h; unfold kThreadGroupUpdateSize; omega
  · intro st0 h0 h1 h2 h3
    simp [init, bufferCapacities, kMaxParticleCount]

/-- Witness for C4: 64 groups give 32768 instances, 32 groups give 16384. -/
theorem direct_work_count_witness :
    (((1 : Int) ≤ 64 ∧ (64 : Int) ≤ 64)
      ∧ (update id sampleState sampleInput).trace.update =
          [ Cmd.setBuffer 0 2 Access.Read, Cmd.setBuffer 1 0 Access.Read,
            Cmd.setBuffer 2 3 Access.Write, Cmd.setBuffer 3 1 Access.Write,
            Cmd.setUniform sampleParams 3,
            Cmd.dispatch Program.m_updateInstancesProgram 64 1 1 ]
      ∧ (update id sampleState sampleInput).trace.draw =
          [ Cmd.setVertexBuffer, Cmd.setIndexBuffer, Cmd.setInstanceDataBuffer 1 0 32768,
            Cmd.setState, Cmd.submit Program.m_particleProgram ])
    ∧ (((1 : Int) ≤ 32 ∧ (32 : Int) ≤ 64)
      ∧ (update id sampleState { sampleInput with dispatchSize := 32 }).trace.draw =
          [ Cmd.setVertexBuffer, Cmd.setIndexBuffer, Cmd.setInstanceDataBuffer 1 0 16384,
            Cmd.setState, Cmd.submit Program.m_particleProgram ]) :=
  ⟨⟨by decide,
      (direct_work_count id sampleState sampleInput rfl rfl rfl 64 rfl
        (by decide) (by decide)).2.1,
      (direct_work_count id sampleState sampleInput rfl rfl rfl 64 rfl
        (by decide) (by decide)).2.2.1⟩,
   ⟨by decide,
      (direct_work_count id sampleState { sampleInput with dispatchSize := 32 } rfl rfl rfl 32
        rfl (by decide) (by decide)).2.2.1⟩⟩

/-! ## The buffer ring -/

/-- An active frame relabels the ring exactly as `swapBuffers` does on the start state. -/
theorem update_labels {F : Type} (lit : ℚ → F) (st : ExampleNbody F) (i : FrameInput F)
    (hq : i.quit = false) (hc : i.computeSupported = true) :
    labels (update lit st i).state =
      [st.m_currPositionBuffer1, st.m_currPositionBuffer0,
       st.m_prevPositionBuffer1, st.m_prevPositionBuffer0] := by
  obtain ⟨hc0, hc1, hp0, hp1⟩ := resetStep_labels lit st i
  rw [update_active lit st i hq hc]
  simp [labels, swapBuffers, xchg, hc0, hc1, hp0, hp1]

/-- Every frame leaves the four labels a rearrangement of what they were. -/
theorem update_labels_perm {F : Type} (lit : ℚ → F) (st : ExampleNbody F) (i : FrameInput F) :
    (labels (update lit st i).state).Perm (labels st) := by
  by_cases h : i.quit = false ∧ i.computeSupported = true
  · rw [update_labels lit st i h.1 h.2]
    exact (List.Perm.swap _ _ _).trans
      (List.Perm.cons _ (List.Perm.cons _ (List.Perm.swap _ _ _)))
  · have h2 : i.quit = true ∨ i.computeSupported = false := by
      cases hq : i.quit <;> cases hcs : i.computeSupported <;> simp_all
    rw [(update_inactive lit st i h2).1]

/-- Any number of frames leaves the four labels a rearrangement of what they were. -/
theorem run_labels_perm {F : Type} (lit : ℚ → F) (inputs : List (FrameInput F)) :
    ∀ st : ExampleNbody F, (labels (run lit st inputs)).Perm (labels st) := by
  induction inputs with
  | nil => intro st; exact List.Perm.refl _
  | cons i rest ih =>
    intro st
    unfold run
    by_cases hr : (update lit st i).result = true
    · simp only [hr, if_true]
      exact (ih _).trans (update_labels_perm lit st i)
    · simp only [hr]
      exact update_labels_perm lit st i

/-- The bindings of the update pass: slots 0 read, slots 1 written, previous before current. -/
theorem updatePass_bindings {F : Type} (st : ExampleNbody F) :
    passReads (updatePass st) = [st.m_prevPositionBuffer0, st.m_currPositionBuffer0]
    ∧ passWrites (updatePass st) = [st.m_prevPositionBuffer1, st.m_currPositionBuffer1]
    ∧ positionBindings (updatePass st) =
        [(0, st.m_prevPositionBuffer0, Access.Read), (1, st.m_currPositionBuffer0, Access.Read),
         (2, st.m_prevPositionBuffer1, Access.Write),
         (3, st.m_currPositionBuffer1, Access.Write)] := by
  cases h : st.m_useIndirect <;> simp [updatePass, passReads, passWrites, positionBindings, h]

/-- The bindings of the update pass of an active frame, in terms of the start state. -/
theorem update_bindings {F : Type} (lit : ℚ → F) (st : ExampleNbody F) (i : FrameInput F)
    (hq : i.quit = false) (hc : i.computeSupported = true) :
    passReads (update lit st i).trace.update
        = [st.m_prevPositionBuffer0, st.m_currPositionBuffer0]
    ∧ passWrites (update lit st i).trace.update
        = [st.m_prevPositionBuffer1, st.m_currPositionBuffer1]
    ∧ positionBindings (update lit st i).trace.update =
        [(0, st.m_prevPositionBuffer0, Access.Read), (1, st.m_currPositionBuffer0, Access.Read),
         (2, st.m_prevPositionBuffer1, Access.Write),
         (3, st.m_currPositionBuffer1, Access.Write)] := by
  obtain ⟨hc0, hc1, hp0, hp1⟩ := resetStep_labels lit st i
  rw [update_active lit st i hq hc]
  simp only [updatePass_bindings, hc0, hc1, hp0, hp1, and_self]

/-- C6: the relabel of lines 326-327 applied twice gives back the object it started from,
so every label returns to its buffer; applied once it exchanges the labels 0 and 1 of the
current role and those of the previous role, each role keeping its own two buffers, and
touches nothing else; it is the relabel an active frame performs. -/
theorem swapBuffers_involutive {F : Type} (lit : ℚ → F) (st : ExampleNbody F)
    (i : FrameInput F) :
    swapBuffers (swapBuffers st) = st
    ∧ (swapBuffers st).m_currPositionBuffer0 = st.m_currPositionBuffer1
    ∧ (swapBuffers st).m_currPositionBuffer1 = st.m_currPositionBuffer0
    ∧ (swapBuffers st).m_prevPositionBuffer0 = st.m_prevPositionBuffer1
    ∧ (swapBuffers st).m_prevPositionBuffer1 = st.m_prevPositionBuffer0
    ∧ (swapBuffers st).m_paramsData = st.m_paramsData
    ∧ (swapBuffers st).m_useIndirect = st.m_useIndirect
    ∧ labels (update lit st { i with quit := false, computeSupported := true }).state
        = labels (swapBuffers st) := by
  refine ⟨rfl, rfl, rfl, rfl, rfl, rfl, rfl, ?_⟩
  rw [update_labels lit st _ rfl rfl]
  rfl

/-- A frame that is not active has an empty trace. -/
theorem update_trace_inactive {F : Type} (lit : ℚ → F) (st : ExampleNbody F)
    (i : FrameInput F) (h : ¬ (i.quit = false ∧ i.computeSupported = true)) :
    (update lit st i).state = st ∧ (update lit st i).trace = FrameTrace.empty := by
  apply update_inactive
  cases hq : i.quit <;> cases hcs : i.computeSupported <;> simp_all

/-- C5: starting from an object whose four slot labels denote pairwise distinct buffers,
after any number of frames the four labels are still pairwise distinct and are a
rearrangement of the original four; and in the next frame, whatever its input, no buffer the
update pass binds for reading is bound by it for writing: when the frame is active the reads
are `prev0, curr0` and the writes `prev1, curr1` of the object at the start of the frame. -/
theorem ring_distinct {F : Type} (lit : ℚ → F) (st0 : ExampleNbody F)
    (hd : (labels st0).Nodup) (inputs : List (FrameInput F)) (i : FrameInput F) :
    (labels (run lit st0 inputs)).Nodup
    ∧ (labels (run lit st0 inputs)).Perm (labels st0)
    ∧ (∀ h ∈ passReads (update lit (run lit st0 inputs) i).trace.update,
        h ∉ passWrites (update lit (run lit st0 inputs) i).trace.update)
    ∧ (i.quit = false → i.computeSupported = true →
        passReads (update lit (run lit st0 inputs) i).trace.update
          = [(run lit st0 inputs).m_prevPositionBuffer0,
             (run lit st0 inputs).m_currPositionBuffer0]
        ∧ passWrites (update lit (run lit st0 inputs) i).trace.update
          = [(run lit st0 inputs).m_prevPositionBuffer1,
             (run lit st0 inputs).m_currPositionBuffer1]) := by
  have hperm := run_labels_perm lit inputs st0
  have hnd : (labels (run lit st0 inputs)).Nodup := hperm.nodup_iff.mpr hd
  refine ⟨hnd, hperm, ?_, fun hq hc => ?_⟩
  · by_cases ha : i.quit = false ∧ i.computeSupported = true
    · obtain ⟨hr, hw, _⟩ := update_bindings lit (run lit st0 inputs) i ha.1 ha.2
      rw [hr, hw]
      simp only [labels, List.nodup_cons, List.mem_cons, List.mem_singleton, not_or,
        List.not_mem_nil, not_false_eq_true, List.nodup_nil, and_true] at hnd
      obtain ⟨⟨h01, h02, h03⟩, ⟨h12, h13⟩, h23⟩ := hnd
      intro h hmem
      simp only [List.mem_cons, List.mem_singleton, List.not_mem_nil, or_false] at hmem ⊢
      rcases hmem with rfl | rfl
      · exact fun hx => hx.elim (fun e => h23 e) (fun e => h12 e.symm)
      · exact fun hx => hx.elim (fun e => h03 e) (fun e => h01 e)
    · rw [(update_trace_inactive lit _ i ha).2]
      intro h hmem
      simp [FrameTrace.empty, passReads] at hmem
  · obtain ⟨hr, hw, _⟩ := update_bindings lit (run lit st0 inputs) i hq hc
    exact ⟨hr, hw⟩

/-- Witness for C5: two frames from the sample object, then a third. -/
theorem ring_distinct_witness :
    (labels sampleState).Nodup
    ∧ (labels (run id sampleState [sampleInput, { sampleInput with shape := 3 }])).Nodup
    ∧ ∀ h ∈ passReads (update id
          (run id sampleState [sampleInput, { sampleInput with shape := 3 }])
          sampleInput).trace.update,
        h ∉ passWrites (update id
          (run id sampleState [sampleInput, { sampleInput with shape := 3 }])
          sampleInput).trace.update :=
  ⟨by decide,
   (ring_distinct id sampleState (by decide)
      [sampleInput, { sampleInput with shape := 3 }] sampleInput).1,
   (ring_distinct id sampleState (by decide)
      [sampleInput, { sampleInput with shape := 3 }] sampleInput).2.2.1⟩

/-! ## The indirect path -/

/-- The reset step commutes with a change of the indirect flag. -/
theorem resetStep_flag {F : Type} (lit : ℚ → F) (st : ExampleNbody F) (b : Bool)
    (shape : Int) (defaults : Bool) :
    resetStep lit { st with m_useIndirect := b } shape defaults
      = ({ (resetStep lit st shape defaults).1 with m_useIndirect := b },
          (resetStep lit st shape defaults).2) := by
  unfold resetStep
  split <;> rfl

/-- What the blocks after the reset step bind does not depend on the indirect flag. -/
theorem passes_flag {F : Type} (st : ExampleNbody F) (b defaults : Bool) :
    reinitPass { st with m_useIndirect := b } defaults = reinitPass st defaults
    ∧ swapBuffers { st with m_useIndirect := b }
        = { swapBuffers st with m_useIndirect := b }
    ∧ positionBindings (indirectPass st) = []
    ∧ instanceBindings (indirectPass st) = []
    ∧ positionBindings (updatePass { st with m_useIndirect := b })
        = positionBindings (updatePass st)
    ∧ instanceBindings (updatePass st) = []
    ∧ (updatePass { st with m_useIndirect := b }).dropLast = (updatePass st).dropLast
    ∧ positionBindings (drawCall st) = []
    ∧ instanceBindings (drawCall { st with m_useIndirect := b })
        = instanceBindings (drawCall st)
    ∧ (drawCall { st with m_useIndirect := b }).dropLast = (drawCall st).dropLast
    ∧ instanceBindings (reinitPass st defaults) = [] := by
  refine ⟨rfl, rfl, ?_, ?_, ?_, ?_, ?_, ?_, ?_, ?_, ?_⟩
  · cases h : st.m_useIndirect <;> simp [indirectPass, positionBindings, h]
  · cases h : st.m_useIndirect <;> simp [indirectPass, instanceBindings, h]
  · rw [(updatePass_bindings _).2.2, (updatePass_bindings _).2.2]
  · cases h : st.m_useIndirect <;> simp [updatePass, instanceBindings, h]
  · simp [updatePass]
  · cases h : st.m_useIndirect <;> simp [drawCall, positionBindings, h]
  · cases b <;> cases h : st.m_useIndirect <;> simp [drawCall, instanceBindings, h]
  · simp [drawCall]
  · cases defaults <;> simp [reinitPass, instanceBindings]

/-- Position bindings of a concatenation. -/
theorem positionBindings_append {F : Type} (a b : List (Cmd F)) :
    positionBindings (a ++ b) = positionBindings a ++ positionBindings b := by
  simp [positionBindings, List.filterMap_append]

/-- Instance bindings of a concatenation. -/
theorem instanceBindings_append {F : Type} (a b : List (Cmd F)) :
    instanceBindings (a ++ b) = instanceBindings a ++ instanceBindings b := by
  simp [instanceBindings, List.filterMap_append]

/-- C7: take any object and any frame input, and change the indirect flag of the object
and the click on the indirect check box in any way.  The frame then ends with the same four
slot labels and the same parameters, issues the same reinitialisation pass, binds the same
position buffers at the same stages with the same access in the update pass and over the
whole frame, and binds the same instance buffer with the same count for the draw; the update
pass and the draw differ at most in their last command (the dispatch and the submit, which
take their counts from the host or from the indirect buffer).  The toggle of lines 282-285
itself changes no slot label. -/
theorem indirect_keeps_topology {F : Type} (lit : ℚ → F) (st : ExampleNbody F)
    (i : FrameInput F) (flag click : Bool) :
    labels (update lit { st with m_useIndirect := flag }
        { i with indirectCheck := click }).state = labels (update lit st i).state
    ∧ (update lit { st with m_useIndirect := flag }
        { i with indirectCheck := click }).state.m_paramsData
        = (update lit st i).state.m_paramsData
    ∧ (update lit { st with m_useIndirect := flag }
        { i with indirectCheck := click }).trace.reinit = (update lit st i).trace.reinit
    ∧ positionBindings (update lit { st with m_useIndirect := flag }
        { i with indirectCheck := click }).trace.update
        = positionBindings (update lit st i).trace.update
    ∧ positionBindings (update lit { st with m_useIndirect := flag }
        { i with indirectCheck := click }).trace.flatten
        = positionBindings (update lit st i).trace.flatten
    ∧ instanceBindings (update lit { st with m_useIndirect := flag }
        { i with indirectCheck := click }).trace.flatten
        = instanceBindings (update lit st i).trace.flatten
    ∧ (update lit { st with m_useIndirect := flag }
        { i with indirectCheck := click }).trace.update.dropLast
        = (update lit st i).trace.update.dropLast
    ∧ (update lit { st with m_useIndirect := flag }
        { i with indirectCheck := click }).trace.draw.dropLast
        = (update lit st i).trace.draw.dropLast
    ∧ labels (imguiFrame st i).1 = labels st := by
  by_cases ha : i.quit = false ∧ i.computeSupported = true
  · obtain ⟨hq, hc⟩ := ha
    have e : resetStep lit
        (imguiFrame { st with m_useIndirect := flag } { i with indirectCheck := click }).1
        i.shape i.defaults
        = ({ (resetStep lit (imguiFrame st i).1 i.shape i.defaults).1 with
              m_useIndirect := if click then !flag else flag },
            (resetStep lit (imguiFrame st i).1 i.shape i.defaults).2) :=
      resetStep_flag lit (imguiFrame st i).1 (if click then !flag else flag) i.shape i.defaults
    have e2 : update lit { st with m_useIndirect := flag } { i with indirectCheck := click }
        = { result := true
            state := swapBuffers
              { (resetStep lit (imguiFrame st i).1 i.shape i.defaults).1 with
                m_useIndirect := if click then !flag else flag }
            trace :=
              ⟨reinitPass { (resetStep lit (imguiFrame st i).1 i.shape i.defaults).1 with
                  m_useIndirect := if click then !flag else flag }
                  (resetStep lit (imguiFrame st i).1 i.shape i.defaults).2,
                indirectPass { (resetStep lit (imguiFrame st i).1 i.shape i.defaults).1 with
                  m_useIndirect := if click then !flag else flag },
                updatePass { (resetStep lit (imguiFrame st i).1 i.shape i.defaults).1 with
                  m_useIndirect := if click then !flag else flag },
                drawCall (swapBuffers
                  { (resetStep lit (imguiFrame st i).1 i.shape i.defaults).1 with
                    m_useIndirect := if click then !flag else flag })⟩ } := by
      rw [update_active lit _ { i with indirectCheck := click } hq hc]
      show FrameResult.mk _ _ _ = _
      rw [e]
    rw [e2, update_active lit st i hq hc]
    generalize (resetStep lit (imguiFrame st i).1 i.shape i.defaults) = rs
    generalize (if click then !flag else flag) = b
    obtain ⟨h1, h2, h3, h4, h5, h6, h7, h8, h9, h10, h11⟩ := passes_flag rs.1 b rs.2
    obtain ⟨_, _, h3b, h4b, _, h6b, _, h8b, _, _, h11b⟩ :=
      passes_flag { rs.1 with m_useIndirect := b } b rs.2
    obtain ⟨_, _, _, _, _, _, _, h8c, h9c, h10c, _⟩ := passes_flag (swapBuffers rs.1) b rs.2
    obtain ⟨_, _, _, _, _, _, _, h8d, _, _, _⟩ :=
      passes_flag { swapBuffers rs.1 with m_useIndirect := b } b rs.2
    refine ⟨rfl, rfl, h1, h5, ?_, ?_, h7, ?_, rfl⟩
    · simp only [FrameTrace.flatten, positionBindings_append, h1, h2, h3, h3b, h5, h8c, h8d]
    · simp only [FrameTrace.flatten, instanceBindings_append, h1, h2, h4, h4b, h6, h6b, h9c,
        h11]
    · simp only [h2, h10c]
  · have ha2 : ¬ (({ i with indirectCheck := click } : FrameInput F).quit = false
        ∧ ({ i with indirectCheck := click } : FrameInput F).computeSupported = true) := ha
    rw [(update_trace_inactive lit st i ha).1, (update_trace_inactive lit st i ha).2,
      (update_trace_inactive lit _ _ ha2).1, (update_trace_inactive lit _ _ ha2).2]
    exact ⟨rfl, rfl, rfl, rfl, rfl, rfl, rfl, rfl, rfl⟩

/-! ## What the reinitialisation pass and the draw bind -/

/-- The position buffers the reinitialisation pass binds, when it is issued. -/
theorem reinitPass_bindings {F : Type} (st : ExampleNbody F) :
    positionBindings (reinitPass st true) =
      [(0, st.m_prevPositionBuffer0, Access.Write), (1, st.m_currPositionBuffer0, Access.Write)]
    ∧ passWrites (reinitPass st true) = [st.m_prevPositionBuffer0, st.m_currPositionBuffer0]
    ∧ passReads (reinitPass st true) = [] := by
  simp [reinitPass, positionBindings, passWrites, passReads]

/-- C8 as stated fails: in a frame with Reset pressed on four distinct buffers, the
reinitialisation pass is issued and writes the buffers 2 and 0 (labels `prev0`, `curr0`),
while the update pass of the same frame writes 3 and 1 (labels `prev1`, `curr1`); neither
slot-1 buffer is bound by the reinitialisation pass. -/
theorem reinit_writes_slot1_counterexample :
    countReinit (update id sampleState { sampleInput with defaults := true }).trace.flatten = 1
    ∧ passWrites (update id sampleState { sampleInput with defaults := true }).trace.reinit
        = [2, 0]
    ∧ passWrites (update id sampleState { sampleInput with defaults := true }).trace.update
        = [3, 1]
    ∧ sampleState.m_prevPositionBuffer1 = 3 ∧ sampleState.m_currPositionBuffer1 = 1
    ∧ ¬ (passWrites (update id sampleState { sampleInput with defaults := true }).trace.reinit
        = passWrites (update id sampleState { sampleInput with defaults := true }).trace.update)
    ∧ sampleState.m_prevPositionBuffer1
        ∉ passWrites (update id sampleState { sampleInput with defaults := true }).trace.reinit
    ∧ sampleState.m_currPositionBuffer1
        ∉ passWrites (update id sampleState { sampleInput with defaults := true }).trace.reinit := by
  refine ⟨rfl, rfl, rfl, rfl, rfl, ?_, ?_, ?_⟩ <;> decide

/-- C8 (amended): whenever a frame issues the reinitialisation pass, that pass binds for
writing the slot-0 buffer of the previous role at stage 0 and the slot-0 buffer of the
current role at stage 1, and binds nothing else; these are the buffers the update pass of
the same frame binds as its read inputs, in the same order. -/
theorem reinit_writes_slot0 {F : Type} (lit : ℚ → F) (st : ExampleNbody F) (i : FrameInput F)
    (hre : (update lit st i).trace.reinit ≠ []) :
    positionBindings (update lit st i).trace.reinit =
      [(0, st.m_prevPositionBuffer0, Access.Write), (1, st.m_currPositionBuffer0, Access.Write)]
    ∧ passWrites (update lit st i).trace.reinit
        = [st.m_prevPositionBuffer0, st.m_currPositionBuffer0]
    ∧ passWrites (update lit st i).trace.reinit = passReads (update lit st i).trace.update
    ∧ passWrites (update lit st i).trace.update
        = [st.m_prevPositionBuffer1, st.m_currPositionBuffer1] := by
  by_cases ha : i.quit = false ∧ i.computeSupported = true
  · obtain ⟨hq, hc⟩ := ha
    obtain ⟨hr, hw, _⟩ := update_bindings lit st i hq hc
    obtain ⟨hc0, hc1, hp0, hp1⟩ := resetStep_labels lit st i
    rw [hr, hw]
    rw [update_active lit st i hq hc] at hre ⊢
    generalize resetStep lit (imguiFrame st i).1 i.shape i.defaults = rs at *
    have hd : rs.2 = true := by
      cases h : rs.2
      · exact absurd (by simp [reinitPass, h]) hre
      · rfl
    obtain ⟨hb, hbw, _⟩ := reinitPass_bindings rs.1
    simp only [hd, hb, hbw, hc0, hp0, and_self]
  · exact absurd (by rw [(update_trace_inactive lit st i ha).2]; rfl) hre

/-- Witness for C8 (amended): Reset pressed on the sample object. -/
theorem reinit_writes_slot0_witness :
    (update id sampleState { sampleInput with defaults := true }).trace.reinit ≠ []
    ∧ passWrites (update id sampleState { sampleInput with defaults := true }).trace.reinit
        = passReads (update id sampleState { sampleInput with defaults := true }).trace.update :=
  ⟨by simp [update, imguiFrame, resetStep, reinitPass, sampleState, sampleInput, sampleParams],
   (reinit_writes_slot0 id sampleState { sampleInput with defaults := true }
      (by simp [update, imguiFrame, resetStep, reinitPass, sampleState, sampleInput,
        sampleParams])).2.2.1⟩

/-- C9: in any frame of a run that starts from four pairwise distinct buffers, every buffer
the draw binds as instance data is the one labelled `curr0` after the relabel, was bound by
the update pass of the same frame at stage 3 for writing (its current-position output), and
is not among the buffers that pass bound for reading; an active frame binds exactly one such
buffer, the one labelled `curr1` when the frame began. -/
theorem draw_reads_fresh {F : Type} (lit : ℚ → F) (st0 : ExampleNbody F)
    (hd : (labels st0).Nodup) (inputs : List (FrameInput F)) (i : FrameInput F) :
    (∀ b ∈ instanceBindings (update lit (run lit st0 inputs) i).trace.draw,
        b.1 = (update lit (run lit st0 inputs) i).state.m_currPositionBuffer0
        ∧ (3, b.1, Access.Write)
            ∈ positionBindings (update lit (run lit st0 inputs) i).trace.update
        ∧ b.1 ∈ passWrites (update lit (run lit st0 inputs) i).trace.update
        ∧ b.1 ∉ passReads (update lit (run lit st0 inputs) i).trace.update)
    ∧ (i.quit = false → i.computeSupported = true →
        (instanceBindings (update lit (run lit st0 inputs) i).trace.draw).map Prod.fst
          = [(run lit st0 inputs).m_currPositionBuffer1]) := by
  have hnd : (labels (run lit st0 inputs)).Nodup :=
    (run_labels_perm lit inputs st0).nodup_iff.mpr hd
  generalize run lit st0 inputs = st at hnd ⊢
  have hdraw : ∀ hq : i.quit = false, ∀ hc : i.computeSupported = true,
      (instanceBindings (update lit st i).trace.draw).map Prod.fst
        = [st.m_currPositionBuffer1] := by
    intro hq hc
    obtain ⟨hc0, hc1, hp0, hp1⟩ := resetStep_labels lit st i
    rw [update_active lit st i hq hc]
    generalize resetStep lit (imguiFrame st i).1 i.shape i.defaults = rs at *
    cases h : rs.1.m_useIndirect <;>
      simp [drawCall, instanceBindings, swapBuffers, xchg, h, hc1]
  refine ⟨?_, hdraw⟩
  by_cases ha : i.quit = false ∧ i.computeSupported = true
  · obtain ⟨hq, hc⟩ := ha
    obtain ⟨hr, hw, hb⟩ := update_bindings lit st i hq hc
    have hl := update_labels lit st i hq hc
    have hcurr : (update lit st i).state.m_currPositionBuffer0 = st.m_currPositionBuffer1 := by
      have := congrArg List.head? hl
      simpa [labels] using this
    simp only [labels, List.nodup_cons, List.mem_cons, List.mem_singleton, not_or,
      List.not_mem_nil, not_false_eq_true, List.nodup_nil, and_true] at hnd
    obtain ⟨⟨h01, _, _⟩, ⟨h12, _⟩, _⟩ := hnd
    intro b hbm
    have hb1 : b.1 = st.m_currPositionBuffer1 := by
      have hm : b.1 ∈ (instanceBindings (update lit st i).trace.draw).map Prod.fst :=
        List.mem_map_of_mem _ hbm
      rw [hdraw hq hc] at hm
      simpa using hm
    rw [hb1, hcurr, hr, hw, hb]
    refine ⟨rfl, by simp, by simp, ?_⟩
    simp only [List.mem_cons, List.mem_singleton, List.not_mem_nil, or_false, not_or]
    exact ⟨h12, fun e => h01 e.symm⟩
  · rw [(update_trace_inactive lit st i ha).2]
    intro b hbm
    simp [FrameTrace.empty, instanceBindings] at hbm

/-- Witness for C9: the third frame of a run from the sample object. -/
theorem draw_reads_fresh_witness :
    (labels sampleState).Nodup
    ∧ (instanceBindings (update id
          (run id sampleState [sampleInput, { sampleInput with defaults := true }])
          sampleInput).trace.draw).map Prod.fst
        = [(run id sampleState
            [sampleInput, { sampleInput with defaults := true }]).m_currPositionBuffer1]
    ∧ ∀ b ∈ instanceBindings (update id
          (run id sampleState [sampleInput, { sampleInput with defaults := true }])
          sampleInput).trace.draw,
        b.1 ∉ passReads (update id
          (run id sampleState [sampleInput, { sampleInput with defaults := true }])
          sampleInput).trace.update :=
  ⟨by decide,
   (draw_reads_fresh id sampleState (by decide)
      [sampleInput, { sampleInput with defaults := true }] sampleInput).2 rfl rfl,
   fun b hb => ((draw_reads_fresh id sampleState (by decide)
      [sampleInput, { sampleInput with defaults := true }] sampleInput).1 b hb).2.2.2⟩

end Nbody
